import Mathlib

/-!
Verification of the OpenTracing JavaScript facade (`src/tracer.js`).

We shallowly embed the `Tracer` class: JavaScript runtime values are modelled
by the inductive `JSVal`, each public entry point becomes a Lean function
taking the argument list (`arguments` in JS) and returning `Except JSError r`,
where a thrown `Error` / `TypeError` is an `.error` result.  The pluggable
backend (`this._imp`) is an opaque record of response functions; each result
records the delegation call made to it, if any, so that frame conditions
("no call was made", "the carrier was forwarded unchanged") are statable.
-/

/-- Marks whether a JS object is a plain object or an instance of the
`SpanContext` class (used by the `instanceof SpanContext` check in
`Tracer.inject`). -/
inductive Brand where
  | plain
  | spanCtx
deriving DecidableEq, Repr

mutual
/-- JavaScript runtime values, restricted to what `tracer.js` inspects:
`undefined`, `null`, strings, numbers (as `Int`; fractional values and NaN
play no role in any branch of the code), booleans, functions (identified by
an opaque id), and objects (a brand plus an association list of own
properties). -/
inductive JSVal where
  | undef
  | null
  | str (s : String)
  | num (n : Int)
  | boolean (b : Bool)
  | fn (id : Nat)
  | obj (brand : Brand) (fields : JSFields)
deriving DecidableEq, Repr

/-- An object's own properties: an association list of name/value pairs. -/
inductive JSFields where
  | nil
  | cons (key : String) (value : JSVal) (rest : JSFields)
deriving DecidableEq, Repr
end

namespace JSVal

/-- The JS `typeof` operator on our value model (`typeof null` is
`"object"` in JavaScript). -/
def typeOf : JSVal → String
  | .undef => "undefined"
  | .null => "object"
  | .str _ => "string"
  | .num _ => "number"
  | .boolean _ => "boolean"
  | .fn _ => "function"
  | .obj _ _ => "object"

/-- JS truthiness, as used by `if (this._imp)`, `!nameOrFields.operationName`
and `fields.reference && fields.references`. -/
def truthy : JSVal → Bool
  | .undef => false
  | .null => false
  | .str s => !s.isEmpty
  | .num n => n != 0
  | .boolean b => b
  | .fn _ => true
  | .obj _ _ => true

/-- Property lookup on an object's property list: the first binding wins, a
missing key reads as `undefined`. -/
def lookupField : JSFields → String → JSVal
  | .nil, _ => .undef
  | .cons k v rest, key => if k = key then v else lookupField rest key

/-- Property read `v.key` on a value that is known not to be `null` or
`undefined` (reading a property of a primitive yields `undefined`;
reading a missing property of an object yields `undefined`). -/
def getProp : JSVal → String → JSVal
  | .obj _ fields, key => lookupField fields key
  | _, _ => undef

/-- The length of a string value, as read by `nameOrFields.length` and
`format.length` (both reads happen under a `typeof x === "string"` guard, so
the non-string cases are unreachable). -/
def strLength : JSVal → Nat
  | .str s => s.length
  | _ => 0

end JSVal

/-- Errors thrown by the facade, named by the spec error taxonomy.  Each
constructor stands for one or more `throw new Error(...)` sites of
`tracer.js`:
`invalidArgumentCount` for the argument-count messages (lines 58, 68, 138,
184, 216); `invalidArgumentType` for the first-argument, format and callback
type messages (lines 61, 144, 187, 219); `emptyOperationName` (line 64);
`nullFields` (line 71); `missingOperationName` (line 74);
`conflictingReferences` (line 95); `invalidSpanContextType` (line 141);
`invalidCarrierType` for the carrier-shape messages (lines 147, 150, 190,
194); `typeError` for a JavaScript runtime TypeError (calling a value that
is not a function, or accessing / assigning a property of `null` or
`undefined`, or assigning a property of a primitive under strict mode). -/
inductive JSError where
  | invalidArgumentCount
  | invalidArgumentType
  | emptyOperationName
  | nullFields
  | missingOperationName
  | conflictingReferences
  | invalidSpanContextType
  | invalidCarrierType
  | typeError
deriving DecidableEq, Repr

namespace JSVal

/-- Update or add an own property in an object property list. -/
def setField : JSFields → String → JSVal → JSFields
  | .nil, key, v => .cons key v .nil
  | .cons k w rest, key, v =>
      if k = key then .cons k v rest else .cons k w (setField rest key v)

/-- Property assignment `target.key = value` under strict mode (the file
begins with `use strict`): updates or adds an own property of an object;
on `null`, `undefined` or a primitive it throws a runtime TypeError. -/
def setProp : JSVal → String → JSVal → Except JSError JSVal
  | .obj b fields, key, v => .ok (.obj b (setField fields key v))
  | _, _, _ => .error .typeError

/-- Property read `v.key` as an expression that can throw: reading a
property of `null` or `undefined` is a runtime TypeError; otherwise as
`getProp`. -/
def getPropEx : JSVal → String → Except JSError JSVal
  | .null, _ => .error .typeError
  | .undef, _ => .error .typeError
  | v, key => .ok (getProp v key)

/-- Calling `f(arg)`: invoking a value that is not a function is a runtime
TypeError; invoking a function records the single invocation with its
argument. -/
def callFunction : JSVal → JSVal → Except JSError (List JSVal)
  | .fn _, arg => .ok [arg]
  | _, _ => .error .typeError

/-- The `x instanceof SpanContext` check of `Tracer.inject`: true exactly
for objects branded as `SpanContext` instances. -/
def isSpanContextInstance : JSVal → Bool
  | .obj .spanCtx _ => true
  | _ => false

end JSVal

namespace Constants

/-- Modelled from the spec: `constants.js` is imported by `tracer.js` but is
not among the sources.  The spec fixes a closed set of propagation format
identifiers exposed as named string constants; only that the two identifiers
are distinct non-empty strings is ever used by the facade logic. -/
def FORMAT_TEXT_MAP : String := "text_map"

/-- Modelled from the spec: the binary propagation format identifier, see
`FORMAT_TEXT_MAP`. -/
def FORMAT_BINARY : String := "binary"

end Constants

/-- Modelled from the spec: `span_context.js` is not among the sources.  Per
the spec a SpanContext exclusively wraps one implementation-specific context
reference, opaque to the facade, never introspected; a SpanContext with no
implementation reference (here `_imp = JSVal.null`, as built by
`new SpanContext(null)`) is a valid no-op context. -/
structure SpanContext where
  _imp : JSVal
deriving DecidableEq, Repr

/-- Modelled from the spec: `span.js` is not among the sources.  Per the
spec a Span wraps an implementation-specific span object or acts as a
complete no-op when the reference is absent; `Tracer.startSpan` builds one
via `new Span(spanImp)` with `spanImp` equal to `null` when no
implementation is installed. -/
structure Span where
  _imp : JSVal
deriving DecidableEq, Repr

/-- The installed implementation (`this._imp`), opaque to the facade: a
record of response functions for each delegated primitive.  `startSpanImp`
returns the implementation span object, `injectImp` returns the carrier
value as mutated by the backend, `extractImp` returns the implementation
context object, and `flushImp` returns the list of argument values with
which the backend invokes the `done` callback. -/
structure Imp where
  startSpanImp : JSVal → JSVal
  injectImp : JSVal → JSVal → JSVal → JSVal
  extractImp : JSVal → JSVal → JSVal
  flushImp : JSVal → List JSVal

/-- The facade.  `imp` models the `_imp` field set by the constructor
(`this._imp = imp || null`); `none` is the no-implementation state. -/
structure Tracer where
  imp : Option Imp

/-- Record of one delegation call
`this._imp.inject(spanContext._imp, format, carrier)`. -/
structure InjectCall where
  ctxImp : JSVal
  format : JSVal
  carrier : JSVal
deriving DecidableEq, Repr

/-- The caller-visible outcome of `Tracer.inject`: the carrier value after
the call (equal to the argument when the facade itself never writes to it;
the backend mutation is `Imp.injectImp`) and the delegation call made to the
implementation, `none` when no call was made. -/
structure InjectResult where
  carrierAfter : JSVal
  call : Option InjectCall
deriving DecidableEq, Repr

/-- The caller-visible outcome of `Tracer.startSpan`: the returned `Span`,
the fields object handed to `imp.startSpan` (`none` when no implementation
is installed and no call is made), and the post-call values of the caller
arguments — the assignment `fields.operationName = nameOrFields` on line 92
mutates the object the caller passed as second argument; effects of the
backend itself are opaque and not modelled. -/
structure StartSpanResult where
  span : Span
  delegated : Option JSVal
  argsAfter : List JSVal
deriving DecidableEq, Repr

/-- The `if (API_CONFORMANCE_CHECKS)` validation block of `Tracer.startSpan`
(tracer.js lines 56-77); `checks` models the global `API_CONFORMANCE_CHECKS`
flag and the argument list models the JavaScript `arguments` object. -/
def startSpanChecksBlock (checks : Bool) (args : List JSVal) : Except JSError Unit := do
  let nameOrFields := args.getD 0 .undef
  if checks then
    if args.length > 2 then
      throw JSError.invalidArgumentCount
    if nameOrFields.typeOf ≠ "string" ∧ nameOrFields.typeOf ≠ "object" then
      throw JSError.invalidArgumentType
    if nameOrFields.typeOf = "string" ∧ nameOrFields.strLength = 0 then
      throw JSError.emptyOperationName
    if nameOrFields.typeOf = "object" then
      if args.length ≠ 1 then
        throw JSError.invalidArgumentCount
      if nameOrFields = JSVal.null then
        throw JSError.nullFields
      if ¬ (nameOrFields.getProp "operationName").truthy then
        throw JSError.missingOperationName

/-- Shallow embedding of `Tracer.startSpan` (tracer.js lines 55-102):
the validation block, then — only when an implementation is installed —
normalization of the two calling shapes into one fields object, the
conflicting-references check, and delegation to `imp.startSpan`. -/
def Tracer.startSpan (checks : Bool) (t : Tracer) (args : List JSVal) :
    Except JSError StartSpanResult := do
  startSpanChecksBlock checks args
  let nameOrFields := args.getD 0 .undef
  let fields := args.getD 1 .undef
  match t.imp with
  | none => pure ⟨⟨.null⟩, none, args⟩
  | some i => do
      let fieldsN ←
        if args.length = 1 then
          if nameOrFields.typeOf = "string" then
            pure (JSVal.obj .plain (.cons "operationName" nameOrFields .nil))
          else
            pure nameOrFields
        else
          JSVal.setProp fields "operationName" nameOrFields
      if checks ∧ (fieldsN.getProp "reference").truthy
          ∧ (fieldsN.getProp "references").truthy then
        throw JSError.conflictingReferences
      pure ⟨⟨i.startSpanImp fieldsN⟩, some fieldsN,
            if args.length = 1 then args else args.set 1 fieldsN⟩

/-- The `if (API_CONFORMANCE_CHECKS)` validation block of `Tracer.inject`
(tracer.js lines 136-152). -/
def injectChecksBlock (checks : Bool) (args : List JSVal) : Except JSError Unit := do
  let spanContext := args.getD 0 .undef
  let format := args.getD 1 .undef
  let carrier := args.getD 2 .undef
  if checks then
    if args.length ≠ 3 then
      throw JSError.invalidArgumentCount
    if ¬ spanContext.isSpanContextInstance then
      throw JSError.invalidSpanContextType
    if format.typeOf ≠ "string" then
      throw JSError.invalidArgumentType
    if format = JSVal.str Constants.FORMAT_TEXT_MAP ∧ carrier.typeOf ≠ "object" then
      throw JSError.invalidCarrierType
    if format = JSVal.str Constants.FORMAT_BINARY ∧ carrier.typeOf ≠ "object" then
      throw JSError.invalidCarrierType

/-- Shallow embedding of `Tracer.inject` (tracer.js lines 135-157): the
validation block, then — only when an implementation is installed — the
delegation `this._imp.inject(spanContext._imp, format, carrier)`. -/
def Tracer.inject (checks : Bool) (t : Tracer) (args : List JSVal) :
    Except JSError InjectResult := do
  injectChecksBlock checks args
  let spanContext := args.getD 0 .undef
  let format := args.getD 1 .undef
  let carrier := args.getD 2 .undef
  match t.imp with
  | none => pure ⟨carrier, none⟩
  | some i => do
      let ctxImp ← spanContext.getPropEx "_imp"
      pure ⟨i.injectImp ctxImp format carrier, some ⟨ctxImp, format, carrier⟩⟩

/-- The `if (API_CONFORMANCE_CHECKS)` validation block of `Tracer.extract`
(tracer.js lines 182-197). -/
def extractChecksBlock (checks : Bool) (args : List JSVal) : Except JSError Unit := do
  let format := args.getD 0 .undef
  let carrier := args.getD 1 .undef
  if checks then
    if args.length ≠ 2 then
      throw JSError.invalidArgumentCount
    if format.typeOf ≠ "string" ∨ format.strLength = 0 then
      throw JSError.invalidArgumentType
    if format = JSVal.str Constants.FORMAT_TEXT_MAP ∧ ¬ carrier.typeOf = "object" then
      throw JSError.invalidCarrierType
    if format = JSVal.str Constants.FORMAT_BINARY then
      let buffer ← carrier.getPropEx "buffer"
      if buffer ≠ JSVal.undef ∧ buffer.typeOf ≠ "object" then
        throw JSError.invalidCarrierType

/-- Shallow embedding of `Tracer.extract` (tracer.js lines 181-203): the
validation block, then `new SpanContext(spanContextImp)` where
`spanContextImp` is `null` unless an implementation is installed. -/
def Tracer.extract (checks : Bool) (t : Tracer) (args : List JSVal) :
    Except JSError SpanContext := do
  extractChecksBlock checks args
  let format := args.getD 0 .undef
  let carrier := args.getD 1 .undef
  match t.imp with
  | none => pure ⟨.null⟩
  | some i => pure ⟨i.extractImp format carrier⟩

/-- The `if (API_CONFORMANCE_CHECKS)` validation block of `Tracer.flush`
(tracer.js lines 214-221). -/
def flushChecksBlock (checks : Bool) (args : List JSVal) : Except JSError Unit := do
  let done := args.getD 0 .undef
  if checks then
    if args.length > 1 then
      throw JSError.invalidArgumentCount
    if done ≠ JSVal.undef ∧ done.typeOf ≠ "function" then
      throw JSError.invalidArgumentType

/-- Shallow embedding of `Tracer.flush` (tracer.js lines 213-227): the
validation block, then `done(null)` when no implementation is installed
(note the call is unguarded) or full delegation to `imp.flush(done)`.
The result is the list of argument values with which the `done` callback
was invoked. -/
def Tracer.flush (checks : Bool) (t : Tracer) (args : List JSVal) :
    Except JSError (List JSVal) := do
  flushChecksBlock checks args
  let done := args.getD 0 .undef
  match t.imp with
  | none => done.callFunction .null
  | some i => pure (i.flushImp done)

deriving instance DecidableEq for Except

/-- A minimal concrete implementation instance, used only to instantiate
theorems about the installed-implementation case at concrete inputs. -/
def testImp : Imp where
  startSpanImp := fun _ => .null
  injectImp := fun _ _ carrier => carrier
  extractImp := fun _ _ => .null
  flushImp := fun _ => []

/-! ### Helper lemmas about the validation blocks -/

@[simp] theorem throw_bind {β : Type} (e : JSError) (k : Unit → Except JSError β) :
    (throw e >>= k : Except JSError β) = .error e := rfl

@[simp] theorem pure_unit_bind {β : Type} (k : Unit → Except JSError β) :
    (pure () >>= k : Except JSError β) = k () := rfl

@[simp] theorem map_throw {β γ : Type} (f : β → γ) (e : JSError) :
    (f <$> (throw e : Except JSError β)) = .error e := rfl

@[simp] theorem ok_bind {β γ : Type} (x : β) (k : β → Except JSError γ) :
    (Except.ok x >>= k : Except JSError γ) = k x := rfl

@[simp] theorem error_bind {β γ : Type} (e : JSError) (k : β → Except JSError γ) :
    (Except.error e >>= k : Except JSError γ) = .error e := rfl

@[simp] theorem except_pure_eq {β : Type} (x : β) :
    (pure x : Except JSError β) = .ok x := rfl

/-- Assigning one property leaves every other property read unchanged. -/
theorem lookupField_setField_ne : ∀ (fs : JSFields) (key key2 : String) (v : JSVal),
    key ≠ key2 →
    JSVal.lookupField (JSVal.setField fs key v) key2 = JSVal.lookupField fs key2
  | .nil, key, key2, v, h => by simp [JSVal.setField, JSVal.lookupField, h]
  | .cons k w rest, key, key2, v, h => by
      by_cases hk : k = key
      · subst hk
        simp [JSVal.setField, JSVal.lookupField, h]
      · simp [JSVal.setField, JSVal.lookupField, hk,
          lookupField_setField_ne rest key key2 v h]

/-- A thrown validation error propagates out of `startSpan` untouched. -/
theorem startSpan_checks_error (checks : Bool) (t : Tracer) (args : List JSVal)
    (e : JSError) (h : startSpanChecksBlock checks args = .error e) :
    Tracer.startSpan checks t args = .error e := by
  unfold Tracer.startSpan
  rw [h]
  rfl

/-- A thrown validation error propagates out of `inject` untouched. -/
theorem inject_checks_error (checks : Bool) (t : Tracer) (args : List JSVal)
    (e : JSError) (h : injectChecksBlock checks args = .error e) :
    Tracer.inject checks t args = .error e := by
  unfold Tracer.inject
  rw [h]
  rfl

/-- A thrown validation error propagates out of `extract` untouched. -/
theorem extract_checks_error (checks : Bool) (t : Tracer) (args : List JSVal)
    (e : JSError) (h : extractChecksBlock checks args = .error e) :
    Tracer.extract checks t args = .error e := by
  unfold Tracer.extract
  rw [h]
  rfl

/-- A thrown validation error propagates out of `flush` untouched. -/
theorem flush_checks_error (checks : Bool) (t : Tracer) (args : List JSVal)
    (e : JSError) (h : flushChecksBlock checks args = .error e) :
    Tracer.flush checks t args = .error e := by
  unfold Tracer.flush
  rw [h]
  rfl

/-! ### Claim theorems -/

/-- C1: with no implementation installed, `flush()` called without a
callback throws a runtime TypeError — the facade invokes `done(null)` with
`done` undefined, the call on line 223 being unguarded — whether or not
conformance checks are enabled; this contradicts the spec, which requires
the facade not to attempt the call when `done` was omitted.  A callback
that is a function is, as specified, invoked exactly once with a null
error. -/
theorem flush_without_implementation_eval :
    Tracer.flush true ⟨none⟩ [] = .error .typeError ∧
    Tracer.flush false ⟨none⟩ [] = .error .typeError ∧
    ∀ id : Nat, Tracer.flush true ⟨none⟩ [.fn id] = .ok [.null] :=
  ⟨rfl, rfl, fun _ => rfl⟩

/-- C8: with conformance checks enabled, `startSpan("")` fails with
EmptyOperationName and `startSpan({})` (an object with no `operationName`)
fails with MissingOperationName, for every Tracer. -/
theorem startSpan_degenerate_operation_names (t : Tracer) :
    Tracer.startSpan true t [.str ""] = .error .emptyOperationName ∧
    Tracer.startSpan true t [.obj .plain .nil] = .error .missingOperationName :=
  ⟨rfl, rfl⟩

/-- C10: in the single-object calling form, a fields object whose
`operationName` is present but equal to the empty string is rejected with
MissingOperationName — the presence check `!nameOrFields.operationName` is
a falsiness check and the empty string is falsy — not with
EmptyOperationName, which is a distinct error raised only in the
single-string form. -/
theorem startSpan_object_form_empty_name (t : Tracer) :
    Tracer.startSpan true t [.obj .plain (.cons "operationName" (.str "") .nil)]
      = .error .missingOperationName ∧
    JSError.missingOperationName ≠ JSError.emptyOperationName :=
  ⟨rfl, by decide⟩

/-- C5: with no implementation installed, `extract` is exactly its
validation block followed by `new SpanContext(null)`: every call that
passes validation succeeds and returns a SpanContext whose implementation
reference is absent, regardless of the carrier contents, and the only
possible failures are the validation errors; in particular
`extract(FORMAT_TEXT_MAP, {})` does not throw and yields the empty
context. -/
theorem extract_without_implementation (c : Bool) (args : List JSVal) :
    Tracer.extract c ⟨none⟩ args
        = (extractChecksBlock c args).map (fun _ => ⟨.null⟩) ∧
    Tracer.extract true ⟨none⟩ [.str Constants.FORMAT_TEXT_MAP, .obj .plain .nil]
        = .ok ⟨.null⟩ := by
  refine ⟨?_, by decide⟩
  unfold Tracer.extract
  cases extractChecksBlock c args with
  | error e => rfl
  | ok u => rfl

/-- C6: with no implementation installed, `inject` is exactly its
validation block with no effect: on success the carrier comes back
unmodified and no implementation call is made; on validation failure the
error propagates and still no call is made. -/
theorem inject_without_implementation (c : Bool) (args : List JSVal) :
    Tracer.inject c ⟨none⟩ args
      = (injectChecksBlock c args).map (fun _ => ⟨args.getD 2 .undef, none⟩) := by
  unfold Tracer.inject
  cases injectChecksBlock c args with
  | error e => rfl
  | ok u => rfl

/-- C7: with conformance checks enabled, argument-count violations are
detected for every entry point: `startSpan` with more than 2 arguments,
`inject` with any number of arguments other than 3, `extract` with any
number other than 2, and `flush` with more than 1 argument each fail with
the InvalidArgumentCount error, whatever the argument values and whatever
implementation is installed. -/
theorem entry_point_argument_count_validation (t : Tracer) (args : List JSVal) :
    (2 < args.length → Tracer.startSpan true t args = .error .invalidArgumentCount) ∧
    (args.length ≠ 3 → Tracer.inject true t args = .error .invalidArgumentCount) ∧
    (args.length ≠ 2 → Tracer.extract true t args = .error .invalidArgumentCount) ∧
    (1 < args.length → Tracer.flush true t args = .error .invalidArgumentCount) := by
  refine ⟨fun h => ?_, fun h => ?_, fun h => ?_, fun h => ?_⟩
  · apply startSpan_checks_error
    simp only [startSpanChecksBlock]
    rw [if_pos trivial, if_pos h]
    rfl
  · apply inject_checks_error
    simp only [injectChecksBlock]
    rw [if_pos trivial, if_pos h]
    rfl
  · apply extract_checks_error
    simp only [extractChecksBlock]
    rw [if_pos trivial, if_pos h]
    rfl
  · apply flush_checks_error
    simp only [flushChecksBlock]
    rw [if_pos trivial, if_pos h]
    rfl

/-- Witness: the argument-count theorem applied at concrete calls —
`startSpan` with 3 arguments, `inject` with 2, `extract` with 1 and `flush`
with 2. -/
theorem entry_point_argument_count_validation_witness :
    Tracer.startSpan true ⟨none⟩ [.str "a", .str "b", .str "c"]
        = .error .invalidArgumentCount ∧
    Tracer.inject true ⟨none⟩ [.obj .spanCtx .nil, .str "x"]
        = .error .invalidArgumentCount ∧
    Tracer.extract true ⟨none⟩ [.str "x"] = .error .invalidArgumentCount ∧
    Tracer.flush true ⟨none⟩ [.fn 0, .fn 1] = .error .invalidArgumentCount :=
  ⟨(entry_point_argument_count_validation ⟨none⟩ _).1 (by decide),
   (entry_point_argument_count_validation ⟨none⟩ _).2.1 (by decide),
   (entry_point_argument_count_validation ⟨none⟩ _).2.2.1 (by decide),
   (entry_point_argument_count_validation ⟨none⟩ _).2.2.2 (by decide)⟩

/-- C2 counterexample: with no implementation installed, a fields object
supplying both `reference` and `references` does NOT make `startSpan` fail
with ConflictingReferences — the check on line 94 sits inside the
`if (this._imp)` branch, so without an implementation the call returns a
no-op Span. -/
theorem startSpan_conflicting_references_counterexample :
    Tracer.startSpan true ⟨none⟩
        [.obj .plain (.cons "operationName" (.str "op")
          (.cons "reference" (.obj .spanCtx .nil)
            (.cons "references" (.obj .plain .nil) .nil)))]
      ≠ .error .conflictingReferences := by decide

/-- C2 (amended): when an implementation is installed and conformance
checks are enabled, a fields object carrying truthy `reference` and
`references` values makes `startSpan` fail with ConflictingReferences, in
both the single-object and the two-argument calling forms; with no
implementation installed the check is skipped. -/
theorem startSpan_conflicting_references_with_imp (i : Imp) (props : JSFields)
    (s : String)
    (hop : (JSVal.lookupField props "operationName").truthy = true)
    (href : (JSVal.lookupField props "reference").truthy = true)
    (hrefs : (JSVal.lookupField props "references").truthy = true)
    (hs : s.length ≠ 0) :
    Tracer.startSpan true ⟨some i⟩ [.obj .plain props]
        = .error .conflictingReferences ∧
    Tracer.startSpan true ⟨some i⟩ [.str s, .obj .plain props]
        = .error .conflictingReferences := by
  have href2 : (JSVal.lookupField (JSVal.setField props "operationName" (.str s))
      "reference").truthy = true := by
    rw [lookupField_setField_ne _ _ _ _ (by decide)]; exact href
  have hrefs2 : (JSVal.lookupField (JSVal.setField props "operationName" (.str s))
      "references").truthy = true := by
    rw [lookupField_setField_ne _ _ _ _ (by decide)]; exact hrefs
  constructor
  · simp [Tracer.startSpan, startSpanChecksBlock, JSVal.getProp, JSVal.typeOf,
      hop, href, hrefs]
  · simp [Tracer.startSpan, startSpanChecksBlock, JSVal.getProp, JSVal.typeOf,
      JSVal.setProp, JSVal.strLength, hs, href2, hrefs2]

/-- Witness: the conflicting-references theorem applied to a concrete
implementation and a concrete fields object carrying both reference
fields. -/
theorem startSpan_conflicting_references_with_imp_witness :
    Tracer.startSpan true ⟨some testImp⟩
        [.obj .plain (.cons "operationName" (.str "op")
          (.cons "reference" (.obj .spanCtx .nil)
            (.cons "references" (.obj .plain .nil) .nil)))]
      = .error .conflictingReferences ∧
    Tracer.startSpan true ⟨some testImp⟩
        [.str "op2", .obj .plain (.cons "operationName" (.str "op")
          (.cons "reference" (.obj .spanCtx .nil)
            (.cons "references" (.obj .plain .nil) .nil)))]
      = .error .conflictingReferences :=
  startSpan_conflicting_references_with_imp testImp
    (.cons "operationName" (.str "op")
      (.cons "reference" (.obj .spanCtx .nil)
        (.cons "references" (.obj .plain .nil) .nil)))
    "op2" (by decide) (by decide) (by decide) (by decide)

/-- C3 counterexample: in the two-argument calling form with an
implementation installed, the facade itself mutates the caller's fields
object — line 92 executes `fields.operationName = nameOrFields` on the
object the caller passed — so the second argument differs after the call
from the empty object that was passed in. -/
theorem startSpan_mutation_counterexample :
    Tracer.startSpan true ⟨some testImp⟩ [.str "op", .obj .plain .nil]
      = .ok ⟨⟨.null⟩, some (.obj .plain (.cons "operationName" (.str "op") .nil)),
             [.str "op", .obj .plain (.cons "operationName" (.str "op") .nil)]⟩ ∧
    JSVal.obj .plain (.cons "operationName" (.str "op") .nil) ≠ .obj .plain .nil :=
  ⟨by decide, by decide⟩

/-- C3 (amended): the facade leaves the caller's arguments unchanged in
every successful call in which no implementation is installed or the
single-argument form is used; only the two-argument form with an installed
implementation writes `operationName` into the caller's fields object, and
effects of the installed implementation itself remain out of scope. -/
theorem startSpan_frame_effect (c : Bool) (t : Tracer) (args : List JSVal)
    (r : StartSpanResult) (h : Tracer.startSpan c t args = .ok r)
    (hcase : t.imp = none ∨ args.length = 1) :
    r.argsAfter = args := by
  unfold Tracer.startSpan at h
  cases hb : startSpanChecksBlock c args with
  | error e => rw [hb] at h; simp at h
  | ok u =>
      rw [hb] at h
      cases u
      cases himp : t.imp with
      | none =>
          rw [himp] at h
          simp at h
          rw [← h]
      | some i =>
          rcases hcase with ht | hlen
          · rw [himp] at ht; cases ht
          · rw [himp] at h
            simp [hlen] at h
            split at h
            · split at h
              · simp at h
              · injection h with h2
                rw [← h2]
            · split at h
              · simp at h
              · injection h with h2
                rw [← h2]

/-- Witness: the frame theorem applied to a single-string call on a Tracer
with no implementation installed. -/
theorem startSpan_frame_effect_witness :
    (⟨⟨.null⟩, none, [JSVal.str "a"]⟩ : StartSpanResult).argsAfter
      = [JSVal.str "a"] :=
  startSpan_frame_effect true ⟨none⟩ [.str "a"] ⟨⟨.null⟩, none, [.str "a"]⟩
    (by decide) (Or.inl rfl)

/-- C4 counterexample: `inject` called with the empty string as format and
an object carrier, conformance checks enabled, does NOT fail with
InvalidArgumentType — line 143 checks only `typeof format !== "string"`,
and an empty string is a string. -/
theorem inject_empty_format_counterexample :
    Tracer.inject true ⟨none⟩ [.obj .spanCtx .nil, .str "", .obj .plain .nil]
      ≠ .error .invalidArgumentType := by decide

/-- C4 (amended): the format validation of `inject` rejects any non-string
format with InvalidArgumentType (given a SpanContext first argument), but
accepts the empty string: the call passes validation for any carrier,
because an empty format also matches neither FORMAT_TEXT_MAP nor
FORMAT_BINARY; non-emptiness of the format is enforced only by
`extract`. -/
theorem inject_format_type_validation (t : Tracer) (sc fmt c1 c2 : JSVal)
    (props : JSFields)
    (hsc : sc.isSpanContextInstance = true)
    (hfmt : fmt.typeOf ≠ "string") :
    Tracer.inject true t [sc, fmt, c1] = .error .invalidArgumentType ∧
    (Tracer.inject true t [.obj .spanCtx props, .str "", c2]).isOk = true := by
  constructor
  · apply inject_checks_error
    simp [injectChecksBlock, hsc, hfmt]
  · have hb : injectChecksBlock true [.obj .spanCtx props, .str "", c2] = .ok () := by
      simp [injectChecksBlock, JSVal.typeOf, JSVal.isSpanContextInstance,
        Constants.FORMAT_TEXT_MAP, Constants.FORMAT_BINARY]
    unfold Tracer.inject
    rw [hb]
    cases himp : t.imp with
    | none => rfl
    | some i => rfl

/-- Witness: the format-validation theorem applied to a number format (a
TypeError-class rejection) and to the empty-string format with a boolean
carrier (accepted). -/
theorem inject_format_type_validation_witness :
    Tracer.inject true ⟨none⟩ [.obj .spanCtx .nil, .num 5, .obj .plain .nil]
        = .error .invalidArgumentType ∧
    (Tracer.inject true ⟨none⟩ [.obj .spanCtx .nil, .str "", .boolean true]).isOk
        = true :=
  inject_format_type_validation ⟨none⟩ (.obj .spanCtx .nil) (.num 5)
    (.obj .plain .nil) (.boolean true) .nil (by decide) (by decide)

/-- C9: `inject` accepts `null` as the carrier for FORMAT_TEXT_MAP —
`typeof null` is the string `"object"`, so the carrier-shape check passes —
the call always succeeds for a SpanContext first argument, and when an
implementation is installed the `null` carrier is forwarded to it
unchanged, together with the wrapped `_imp` reference read from the
SpanContext. -/
theorem inject_null_carrier_accepted (props : JSFields) (t : Tracer) (i : Imp) :
    (Tracer.inject true t
        [.obj .spanCtx props, .str Constants.FORMAT_TEXT_MAP, .null]).isOk = true ∧
    Tracer.inject true ⟨some i⟩
        [.obj .spanCtx props, .str Constants.FORMAT_TEXT_MAP, .null]
      = .ok ⟨i.injectImp (JSVal.lookupField props "_imp")
               (.str Constants.FORMAT_TEXT_MAP) .null,
             some ⟨JSVal.lookupField props "_imp",
                   .str Constants.FORMAT_TEXT_MAP, .null⟩⟩ := by
  have hb : injectChecksBlock true
      [.obj .spanCtx props, .str Constants.FORMAT_TEXT_MAP, .null] = .ok () := by
    simp [injectChecksBlock, JSVal.typeOf, JSVal.isSpanContextInstance,
      Constants.FORMAT_TEXT_MAP, Constants.FORMAT_BINARY]
  constructor
  · unfold Tracer.inject
    rw [hb]
    cases himp : t.imp with
    | none => rfl
    | some j => rfl
  · unfold Tracer.inject
    rw [hb]
    rfl
